import Mathlib

/-!
Shallow embedding of `src/scripts/main.ts` of google-imagen3-mcp-typescript:
a stdio JSON-RPC image-generation tool backed by a remote provider, plus the
startup configuration checks.  External collaborators (the HTTP fetch, the
JSON parser of the RPC line, `nanoid`, the date formatter, base64 decoding)
are modelled as oracle inputs; everything else is translated directly from
the TypeScript source.
-/

namespace Imagen3Mcp

/-- JavaScript truthiness of an optional string environment value or argument:
`undefined` and the empty string are falsy, every other string is truthy. -/
def truthy (s : Option String) : Bool :=
  match s with
  | none => false
  | some v => v ≠ ""

/-- JavaScript `a || b` for an optional string `a` with string default `b`,
as used for `process.env.X || 'default'`. -/
def jsOr (o : Option String) (d : String) : String :=
  match o with
  | none => d
  | some s => if s = "" then d else s

/-- `path.join a b` for the simple components this program joins
(no trailing separators, no `..` segments occur in the source). -/
def pathJoin (a b : String) : String := a ++ "/" ++ b

/-- Tool argument type `ImagePrompt` from the source.  `prompt` is declared
required in the interface; `aspect_ratio` is optional. -/
structure ImagePrompt where
  prompt : String
  aspect_ratio : Option String
deriving DecidableEq, Repr

/-- `GeminiInstance` from the source. -/
structure GeminiInstance where
  prompt : String
deriving DecidableEq, Repr

/-- `GeminiParameters` from the source: `sampleCount` with optional
`aspectRatio`. -/
structure GeminiParameters where
  sampleCount : Nat
  aspectRatio : Option String
deriving DecidableEq, Repr

/-- `GeminiRequest` from the source: the JSON body POSTed to the provider. -/
structure GeminiRequest where
  instances : List GeminiInstance
  parameters : GeminiParameters
deriving DecidableEq, Repr

/-- The provider request built by `generateImageFromGemini`:
`instances: [\x7b prompt \x7d], parameters: \x7b sampleCount: 1, aspectRatio \x7d`. -/
def mkGeminiRequest (prompt : String) (aspectRatio : Option String) : GeminiRequest :=
  { instances := [{ prompt := prompt }]
    parameters := { sampleCount := 1, aspectRatio := aspectRatio } }

/-- `GeminiPrediction` from the source. -/
structure GeminiPrediction where
  mimeType : String
  bytesBase64Encoded : String
deriving DecidableEq, Repr

/-- Parsed `GeminiResponse` from the source: both fields optional.
`error` is modelled by its `message` string. -/
structure GeminiResponse where
  predictions : Option (List GeminiPrediction)
  error : Option String
deriving DecidableEq, Repr

/-- Outcome of the single `fetch` plus, on HTTP success, the `JSON.parse` of
its body.  The network and the JSON parser are external, so the outcome is an
input of the embedding:
`httpError` is a response with `response.ok` false (carrying `status` and the
body text), `parseError` is an ok response whose body fails `JSON.parse`
(carrying the parse error message and the body text), and `parsed` is an ok
response whose body parsed as a `GeminiResponse`. -/
inductive FetchOutcome where
  | httpError (status : Nat) (body : String)
  | parseError (errMsg : String) (body : String)
  | parsed (resp : GeminiResponse)
deriving DecidableEq, Repr

/-- The `Error` values thrown inside `generateImageFromGemini`. -/
inductive GenError where
  | noApiKey
  | httpError (status : Nat) (body : String)
  | parseError (msg : String) (body : String)
  | apiError (msg : String)
  | noImages
deriving DecidableEq, Repr

/-- The `e.message` text of each thrown `Error`, copied from the template
strings in the source (right-associated concatenation). -/
def GenError.message : GenError → String
  | .noApiKey => "GEMINI_API_KEY environment variable not set"
  | .httpError s b =>
      "Gemini API request failed with status " ++ (toString s ++ (": " ++ b))
  | .parseError m b =>
      "Failed to parse Gemini response: " ++ (m ++ (". The response was: " ++ b))
  | .apiError m => "Gemini API Error: " ++ m
  | .noImages =>
      "No images were generated. This might be due to the image not passing Google\x27s safety review."

/-- Oracles for the external libraries used inside the persistence loop:
`nanoidAt k` is the string returned by the `nanoid(10)` call of loop
iteration `k`, `timestampAt k` the string returned by
`formatDate(new Date(), yyyyMMddHHmmss)` of iteration `k`, and
`decodeBase64` the byte sequence produced by `Buffer.from(s, base64)`
(which never throws). -/
structure GenOracles where
  nanoidAt : Nat → String
  timestampAt : Nat → String
  decodeBase64 : String → List Nat

/-- The filename built in loop iteration `k`:
`id_timestamp.png` with `id = nanoid(10)`. -/
def mkFilename (oracles : GenOracles) (k : Nat) : String :=
  oracles.nanoidAt k ++ "_" ++ oracles.timestampAt k ++ ".png"

/-- The filenames produced by a run of the persistence loop over `n`
predictions: iteration `k` contributes `mkFilename oracles k`. -/
def generatedFilenames (oracles : GenOracles) (n : Nat) : List String :=
  (List.range n).map (mkFilename oracles)

/-- Result value of `generateImageFromGemini`: the returned filename list, or
the thrown error. -/
inductive GenResult where
  | ok (filenames : List String)
  | error (e : GenError)
deriving DecidableEq, Repr

/-- Observable outcome of one `generateImageFromGemini` call: its result,
the provider request actually sent (`none` when no network call was made —
the source performs at most one `fetch`, with no retry loop), and the files
written to disk as `(path, bytes)` pairs, in write order. -/
structure GenOutcome where
  result : GenResult
  request : Option GeminiRequest
  files : List (String × List Nat)
deriving Repr

/-- `generateImageFromGemini(prompt, aspectRatio, resourcesPath)` from the
source.  `apiKey` is `process.env.GEMINI_API_KEY`; `outcome` is the result of
the single `fetch` + body parse.  File writes are modelled as always
succeeding (an fs failure is an external event outside the claims treated
here). -/
def generateImageFromGemini (apiKey : Option String) (oracles : GenOracles)
    (prompt : String) (aspectRatio : Option String) (resourcesPath : String)
    (outcome : FetchOutcome) : GenOutcome :=
  if truthy apiKey = false then
    { result := .error .noApiKey, request := none, files := [] }
  else
    let request := mkGeminiRequest prompt aspectRatio
    let imagesDir := pathJoin resourcesPath "images"
    match outcome with
    | .httpError s b =>
        { result := .error (.httpError s b), request := some request, files := [] }
    | .parseError m b =>
        { result := .error (.parseError m b), request := some request, files := [] }
    | .parsed resp =>
        match resp.error with
        | some m =>
            { result := .error (.apiError m), request := some request, files := [] }
        | none =>
            let predictions := resp.predictions.getD []
            if predictions.length = 0 then
              { result := .error .noImages, request := some request, files := [] }
            else
              let entries := predictions.enum.map (fun p =>
                (mkFilename oracles p.1, oracles.decodeBase64 p.2.bytesBase64Encoded))
              { result := .ok (entries.map Prod.fst)
                request := some request
                files := entries.map (fun e => (pathJoin imagesDir e.1, e.2)) }

/-- `SUPPORTED_ASPECT_RATIOS` from `generate_image` (named in lowerCamelCase
here). -/
def supportedAspectRatios : List String := ["1:1", "3:4", "4:3", "9:16", "16:9"]

/-- The validation guard of `generate_image`:
`args.aspect_ratio && !SUPPORTED_ASPECT_RATIOS.includes(args.aspect_ratio)`.
Note the JavaScript truthiness test: the empty string is falsy, so it never
fails the guard. -/
def aspectInvalid (a : Option String) : Bool :=
  truthy a && !(supportedAspectRatios.contains (a.getD ""))

/-- The error text returned for an invalid aspect ratio, copied from the
template string in the source. -/
def invalidAspectMsg (a : String) : String :=
  "Invalid aspect ratio: " ++ a ++ ", supported values are: " ++
    String.intercalate ", " supportedAspectRatios

/-- Constructor fields of `ImageGenerationServer`. -/
structure ServerState where
  resourcesPath : String
  imageResourceServerAddr : String
  serverPort : Nat
deriving DecidableEq, Repr

/-- Observable outcome of one `generate_image` tool call: the returned text,
the provider request made (if any), and the files written. -/
structure ToolOutcome where
  text : String
  request : Option GeminiRequest
  files : List (String × List Nat)
deriving Repr

/-- `ImageGenerationServer.generate_image(args)` from the source: validates
the aspect ratio, calls `generateImageFromGemini`, and maps filenames to
`http://addr:port/images/filename` URLs joined by newlines; any thrown error
is caught and returned as `Error generating image: message` text. -/
def generate_image (srv : ServerState) (apiKey : Option String)
    (oracles : GenOracles) (args : ImagePrompt) (outcome : FetchOutcome) : ToolOutcome :=
  if aspectInvalid args.aspect_ratio then
    { text := invalidAspectMsg (args.aspect_ratio.getD ""), request := none, files := [] }
  else
    let gen := generateImageFromGemini apiKey oracles args.prompt args.aspect_ratio
      srv.resourcesPath outcome
    match gen.result with
    | .ok filenames =>
        { text := String.intercalate "\n" (filenames.map (fun filename =>
            "http://" ++ srv.imageResourceServerAddr ++ ":" ++
              toString srv.serverPort ++ "/images/" ++ filename))
          request := gen.request
          files := gen.files }
    | .error e =>
        { text := "Error generating image: " ++ e.message
          request := gen.request
          files := gen.files }

/-- Nested `server_info` block of `ServerInfo`. -/
structure ServerNameVersion where
  name : String
  version : String
deriving DecidableEq, Repr

/-- Capability flags of `ServerInfo`. -/
structure ServerCapabilities where
  tools : Bool
deriving DecidableEq, Repr

/-- `ServerInfo` from the source. -/
structure ServerInfo where
  server_info : ServerNameVersion
  instructions : Option String
  capabilities : ServerCapabilities
deriving DecidableEq, Repr

/-- Opening sentence of the static instruction text returned by `getInfo`.
The source embeds a long prompt-writing guide; no claim concerns its content,
so the embedding keeps only its first sentence. -/
def instructionsText : String :=
  "Use the generate_image tool to create images from text descriptions. The returned URL can be used in markdown format like ![description](URL) to display the image."

/-- `ImageGenerationServer.getInfo()` from the source: static metadata with
no failure path. -/
def getInfo : ServerInfo :=
  { server_info := { name := "imagen3-mcp", version := "0.1.0" }
    instructions := some instructionsText
    capabilities := { tools := true } }

/-- One parsed RPC request line: destructured `id`, `method`, `params` of the
JSON object.  `id` is an opaque correlation token, modelled as a string. -/
structure RpcRequest where
  id : String
  method : String
  params : Option ImagePrompt
deriving DecidableEq, Repr

/-- Outcome of `JSON.parse` on one input line.  The JSON parser is external
and deterministic: a line either fails to parse (`malformed`) — and then it
fails identically when reparsed in the catch block — or yields a request. -/
inductive ParsedLine where
  | malformed
  | request (req : RpcRequest)
deriving DecidableEq, Repr

/-- A successful dispatch result: the `result` field of a response line. -/
inductive RpcResult where
  | info (si : ServerInfo)
  | text (s : String)
deriving DecidableEq, Repr

/-- The body of one response line: either `\x7bid, result\x7d` or
`\x7bid, error: \x7bmessage\x7d\x7d`. -/
inductive RpcPayload where
  | result (r : RpcResult)
  | rpcError (message : String)
deriving DecidableEq, Repr

/-- One JSON line written to stdout. -/
structure RpcResponse where
  id : String
  payload : RpcPayload
deriving DecidableEq, Repr

/-- The JavaScript `TypeError` message thrown when `generate_image` receives
`undefined` params and reads `args.aspect_ratio`. -/
def typeErrorUndefinedParams : String :=
  "Cannot read properties of undefined (reading \x27aspect_ratio\x27)"

/-- Observable effects of handling one input line: the response line written
(`none` when nothing is written), the provider request made, and the files
written. -/
structure LineEffects where
  written : Option RpcResponse
  request : Option GeminiRequest
  files : List (String × List Nat)
deriving Repr

/-- The `rl.on(line)` handler from the source.  `try`: parse the line,
destructure, dispatch by method, write `\x7bid, result\x7d`.  `catch`: reparse
the same line to recover its id and write `\x7bid, error\x7d` — on a malformed
line this reparse throws identically and NO response line is written. -/
def handleLine (srv : ServerState) (apiKey : Option String) (oracles : GenOracles)
    (outcome : FetchOutcome) : ParsedLine → LineEffects
  | .malformed => { written := none, request := none, files := [] }
  | .request req =>
      if req.method = "get_info" then
        { written := some { id := req.id, payload := .result (.info getInfo) }
          request := none, files := [] }
      else if req.method = "generate_image" then
        match req.params with
        | none =>
            { written := some { id := req.id, payload := .rpcError typeErrorUndefinedParams }
              request := none, files := [] }
        | some args =>
            let t := generate_image srv apiKey oracles args outcome
            { written := some { id := req.id, payload := .result (.text t.text) }
              request := t.request, files := t.files }
      else
        { written := some { id := req.id, payload := .rpcError ("Unknown method: " ++ req.method) }
          request := none, files := [] }

/-- JavaScript whitespace skipped by `parseInt`. -/
def jsWhitespace (c : Char) : Bool :=
  c = ' ' || c = '\t' || c = '\n' || c = '\r' || c = '\x0b' || c = '\x0c'

/-- Digits of a character list read as a base-10 number. -/
def digitsToNat (l : List Char) : Nat :=
  l.foldl (fun acc c => acc * 10 + (c.toNat - '0'.toNat)) 0

/-- `parseInt(s, 10)` from JavaScript, as used for `SERVER_PORT`:
skip leading whitespace, read an optional sign, then the longest prefix of
decimal digits; `none` models `NaN` (no digits found), otherwise the numeric
value of the digit prefix — trailing non-digit characters are ignored. -/
def parseIntJS (s : String) : Option Int :=
  let l := s.data.dropWhile jsWhitespace
  let signed : Int × List Char :=
    match l with
    | '-' :: rest => (-1, rest)
    | '+' :: rest => (1, rest)
    | _ => (1, l)
  let digits := signed.2.takeWhile Char.isDigit
  if digits.isEmpty then none
  else some (signed.1 * (digitsToNat digits : Int))

/-- The environment variables read by the configuration section of `main`. -/
structure StartupEnv where
  geminiApiKey : Option String
  serverPortVar : Option String
  imageResourceServerAddrVar : Option String
  serverListenAddrVar : Option String
deriving Repr

/-- The configuration produced when startup succeeds. -/
structure Config where
  imageResourceServerAddr : String
  serverPort : Int
  listenAddr : String
deriving DecidableEq, Repr

/-- Result of the configuration section of `main`: `exitFailure` models
`process.exit(1)` (reached before any RPC line is served). -/
inductive StartupResult where
  | exitFailure
  | started (cfg : Config)
deriving DecidableEq, Repr

/-- The configuration checks of `main`: resolve defaults with `||`, parse the
port with `parseInt(.., 10)`, `process.exit(1)` if it is `NaN`, then
`process.exit(1)` if `GEMINI_API_KEY` is falsy. -/
def startupConfig (env : StartupEnv) : StartupResult :=
  let imageResourceServerAddr := jsOr env.imageResourceServerAddrVar "127.0.0.1"
  let listenAddr := jsOr env.serverListenAddrVar "127.0.0.1"
  match parseIntJS (jsOr env.serverPortVar "9981") with
  | none => .exitFailure
  | some p =>
      if truthy env.geminiApiKey = false then .exitFailure
      else .started { imageResourceServerAddr := imageResourceServerAddr
                      serverPort := p
                      listenAddr := listenAddr }

/-- The URL-safe alphabet of the default `nanoid` output. -/
def urlSafeAlphabet : List Char :=
  "ABCDEFGHIJKLMNOPQRSTUVWXYZabcdefghijklmnopqrstuvwxyz0123456789_-".data

/-- Does the string consist of an optional sign followed by one or more
decimal digits and nothing else — the plain reading of the phrase
"parses as an integer" used by the spec for the port value. -/
def isIntegerLiteral (s : String) : Bool :=
  let l :=
    match s.data with
    | '-' :: r => r
    | '+' :: r => r
    | l => l
  !l.isEmpty && l.all Char.isDigit

/-- Civil (wall-clock) time components to the second, as rendered by the
date-format pattern yyyyMMddHHmmss. -/
structure CivilTime where
  year : Nat
  month : Nat
  day : Nat
  hour : Nat
  minute : Nat
  second : Nat
deriving DecidableEq, Repr

/-- Two-digit zero padding of the MM, dd, HH, mm and ss fields. -/
def pad2 (n : Nat) : String :=
  if n < 10 then "0" ++ toString n else toString n

/-- Four-digit zero padding of the yyyy field. -/
def pad4 (n : Nat) : String :=
  if n < 10 then "000" ++ toString n
  else if n < 100 then "00" ++ toString n
  else if n < 1000 then "0" ++ toString n
  else toString n

/-- The pattern yyyyMMddHHmmss applied to civil-time components. -/
def formatYyyyMMddHHmmss (t : CivilTime) : String :=
  pad4 t.year ++ pad2 t.month ++ pad2 t.day ++ pad2 t.hour ++ pad2 t.minute ++ pad2 t.second

/-- One absolute instant of the JS clock, carried in both of its civil
renderings: its UTC components and its process-local-timezone components.
The two differ by the environment's zone offset; which pair belongs to one
instant is environment data of the embedding. -/
structure ClockInstant where
  utc : CivilTime
  localTime : CivilTime
deriving DecidableEq, Repr

/-- The call format(new Date(), yyyyMMddHHmmss) of the date-fns library at
main.ts:333: per the library's documented semantics it renders the civil
components of the current instant in the PROCESS-LOCAL timezone, not in
UTC. -/
def dateFnsFormat (i : ClockInstant) : String :=
  formatYyyyMMddHHmmss i.localTime

/-! Concrete fixtures shared by the witness and counterexample theorems. -/

/-- A concrete server state used by witnesses. -/
def srvW : ServerState :=
  { resourcesPath := "/data/artifacts"
    imageResourceServerAddr := "127.0.0.1"
    serverPort := 9981 }

/-- Concrete oracles used by witnesses: constant nanoid and timestamp outputs
of the documented shapes, and a constant decoded byte sequence. -/
def oraclesW : GenOracles :=
  { nanoidAt := fun _ => "abcdefghij"
    timestampAt := fun _ => "20260101120000"
    decodeBase64 := fun _ => [137, 80, 78, 71] }

/-- A concrete instant as seen by a process running in a UTC+8 timezone:
UTC civil time 2026-01-01 23:00:00, local civil time 2026-01-02 07:00:00. -/
def instantW : ClockInstant :=
  { utc := { year := 2026, month := 1, day := 1, hour := 23, minute := 0, second := 0 }
    localTime := { year := 2026, month := 1, day := 2, hour := 7, minute := 0, second := 0 } }

/-- Oracles of a run happening at instantW in the UTC+8 environment: the
timestamp oracle returns the date-fns local-time rendering. -/
def oraclesTzW : GenOracles :=
  { nanoidAt := fun _ => "abcdefghij"
    timestampAt := fun _ => dateFnsFormat instantW
    decodeBase64 := fun _ => [137, 80, 78, 71] }

/-- A concrete single-prediction list used by witnesses. -/
def predsW : List GeminiPrediction :=
  [{ mimeType := "image/png", bytesBase64Encoded := "iVBORw==" }]

/-- A concrete successful provider response used by witnesses. -/
def respW : GeminiResponse := { predictions := some predsW, error := none }

/-! Helper lemmas shared by several claims. -/

/-- Two strings whose first characters differ are different. -/
theorem string_ne_of_head_ne {a b : String} (h : a.data.head? ≠ b.data.head?) : a ≠ b :=
  fun e => h (by rw [e])

/-- The head character of an appended string is the head of its first part. -/
theorem head_append_of_head {A : String} (X : String) {c : Char}
    (h : A.data.head? = some c) : (A ++ X).data.head? = some c := by
  rw [String.data_append]
  cases hA : A.data with
  | nil => rw [hA] at h; exact absurd h (by simp)
  | cons d l => rw [hA] at h; rw [List.cons_append]; exact h

/-- Appending on the left is cancellative for strings. -/
theorem append_left_cancel_str {P a b : String} (h : P ++ a = P ++ b) : a = b := by
  apply String.ext
  have hd := congrArg String.data h
  rw [String.data_append, String.data_append] at hd
  exact List.append_cancel_left hd

/-- The first components of the persistence-loop entries are exactly the
generated filenames. -/
theorem entries_map_fst (oracles : GenOracles) (preds : List GeminiPrediction) :
    (preds.enum.map (fun p =>
        (mkFilename oracles p.1, oracles.decodeBase64 p.2.bytesBase64Encoded))).map Prod.fst
      = generatedFilenames oracles preds.length := by
  rw [List.map_map]
  unfold generatedFilenames
  rw [← List.enum_map_fst, List.map_map]
  rfl

/-- C1: for every successful provider response with at least one prediction,
generate_image returns the generated filenames' URLs joined by newlines, each
URL of the form http://advertisedHost:port/images/filename, and each such
filename is among the files written under the images directory, one file per
prediction. -/
theorem c1_success_returns_urls_of_written_files
    (srv : ServerState) (key : Option String) (oracles : GenOracles)
    (args : ImagePrompt) (resp : GeminiResponse) (preds : List GeminiPrediction)
    (hkey : truthy key = true)
    (hvalid : aspectInvalid args.aspect_ratio = false)
    (herr : resp.error = none)
    (hpreds : resp.predictions = some preds)
    (hne : preds ≠ []) :
    (generatedFilenames oracles preds.length).length = preds.length ∧
    (generate_image srv key oracles args (.parsed resp)).text =
      String.intercalate "\n" ((generatedFilenames oracles preds.length).map
        (fun filename => "http://" ++ srv.imageResourceServerAddr ++ ":" ++
          toString srv.serverPort ++ "/images/" ++ filename)) ∧
    (generate_image srv key oracles args (.parsed resp)).files.map Prod.fst =
      (generatedFilenames oracles preds.length).map
        (fun filename => pathJoin (pathJoin srv.resourcesPath "images") filename) := by
  have hlen : ¬ preds.length = 0 := fun h => hne (List.length_eq_zero.mp h)
  refine ⟨by simp [generatedFilenames], ?_, ?_⟩ <;>
    simp only [generate_image, generateImageFromGemini, hvalid, hkey, herr, hpreds,
      Bool.false_eq_true, if_false, Option.getD_some, if_neg hlen] <;>
    rw [← entries_map_fst oracles preds] <;>
    simp [List.map_map, Function.comp]

/-- C1 witness: a concrete one-prediction success producing one URL and one
written file. -/
theorem c1_witness :
    (generatedFilenames oraclesW 1).length = 1 ∧
    (generate_image srvW (some "k") oraclesW
        { prompt := "a red cube", aspect_ratio := some "16:9" } (.parsed respW)).text =
      String.intercalate "\n" ((generatedFilenames oraclesW 1).map
        (fun filename => "http://" ++ srvW.imageResourceServerAddr ++ ":" ++
          toString srvW.serverPort ++ "/images/" ++ filename)) ∧
    (generate_image srvW (some "k") oraclesW
        { prompt := "a red cube", aspect_ratio := some "16:9" } (.parsed respW)).files.map Prod.fst =
      (generatedFilenames oraclesW 1).map
        (fun filename => pathJoin (pathJoin srvW.resourcesPath "images") filename) :=
  c1_success_returns_urls_of_written_files srvW (some "k") oraclesW
    { prompt := "a red cube", aspect_ratio := some "16:9" } respW predsW
    (by decide) (by decide) rfl rfl (by decide)

/-- The no-images error message differs from every HTTP-failure message. -/
theorem noImages_message_ne_httpError (s : Nat) (b : String) :
    GenError.noImages.message ≠ (GenError.httpError s b).message := by
  apply string_ne_of_head_ne
  have hR : (GenError.httpError s b).message.data.head? = some 'G' :=
    head_append_of_head (toString s ++ (": " ++ b)) rfl
  have hL : GenError.noImages.message.data.head? = some 'N' := rfl
  rw [hL, hR]
  decide

/-- The no-images error message differs from every parse-failure message. -/
theorem noImages_message_ne_parseError (m b : String) :
    GenError.noImages.message ≠ (GenError.parseError m b).message := by
  apply string_ne_of_head_ne
  have hR : (GenError.parseError m b).message.data.head? = some 'F' :=
    head_append_of_head (m ++ (". The response was: " ++ b)) rfl
  have hL : GenError.noImages.message.data.head? = some 'N' := rfl
  rw [hL, hR]
  decide

/-- C4: for a provider HTTP response with non-success status, generate_image
returns an error string that embeds the numeric status code and the raw
response body, writes zero files, and the single fetch recorded is the only
provider call (the source has exactly one fetch and no retry loop). -/
theorem c4_http_failure_error_text_no_files
    (srv : ServerState) (key : Option String) (oracles : GenOracles)
    (args : ImagePrompt) (status : Nat) (body : String)
    (hkey : truthy key = true)
    (hvalid : aspectInvalid args.aspect_ratio = false) :
    (generate_image srv key oracles args (.httpError status body)).text =
      "Error generating image: " ++ ("Gemini API request failed with status " ++
        (toString status ++ (": " ++ body))) ∧
    (generate_image srv key oracles args (.httpError status body)).files = [] ∧
    (generate_image srv key oracles args (.httpError status body)).request =
      some (mkGeminiRequest args.prompt args.aspect_ratio) := by
  refine ⟨?_, ?_, ?_⟩ <;>
    simp [generate_image, generateImageFromGemini, hvalid, hkey, GenError.message]

/-- C4 witness: a concrete 500 response with body boom. -/
theorem c4_witness :
    (generate_image srvW (some "k") oraclesW
        { prompt := "p", aspect_ratio := none } (.httpError 500 "boom")).text =
      "Error generating image: " ++ ("Gemini API request failed with status " ++
        (toString 500 ++ (": " ++ "boom"))) ∧
    (generate_image srvW (some "k") oraclesW
        { prompt := "p", aspect_ratio := none } (.httpError 500 "boom")).files = [] ∧
    (generate_image srvW (some "k") oraclesW
        { prompt := "p", aspect_ratio := none } (.httpError 500 "boom")).request =
      some (mkGeminiRequest "p" none) :=
  c4_http_failure_error_text_no_files srvW (some "k") oraclesW
    { prompt := "p", aspect_ratio := none } 500 "boom" (by decide) (by decide)

/-- C5: for a provider response whose prediction list is empty or absent (and
which carries no error object), generate_image returns the safety-review
error text, writes zero files, and that message differs from every transport
(HTTP) and parse failure message. -/
theorem c5_empty_predictions_safety_error
    (srv : ServerState) (key : Option String) (oracles : GenOracles)
    (args : ImagePrompt) (resp : GeminiResponse)
    (hkey : truthy key = true)
    (hvalid : aspectInvalid args.aspect_ratio = false)
    (herr : resp.error = none)
    (hpreds : resp.predictions.getD [] = []) :
    (generate_image srv key oracles args (.parsed resp)).text =
      "Error generating image: " ++
        "No images were generated. This might be due to the image not passing Google\x27s safety review." ∧
    (generate_image srv key oracles args (.parsed resp)).files = [] ∧
    (∀ s b, GenError.noImages.message ≠ (GenError.httpError s b).message) ∧
    (∀ m b, GenError.noImages.message ≠ (GenError.parseError m b).message) := by
  refine ⟨?_, ?_, noImages_message_ne_httpError, noImages_message_ne_parseError⟩ <;>
    simp [generate_image, generateImageFromGemini, hvalid, hkey, herr, hpreds,
      GenError.message]

/-- C5 witness: a concrete response with an empty prediction list. -/
theorem c5_witness :
    (generate_image srvW (some "k") oraclesW { prompt := "p", aspect_ratio := none }
        (.parsed { predictions := some [], error := none })).text =
      "Error generating image: " ++
        "No images were generated. This might be due to the image not passing Google\x27s safety review." ∧
    (generate_image srvW (some "k") oraclesW { prompt := "p", aspect_ratio := none }
        (.parsed { predictions := some [], error := none })).files = [] ∧
    (∀ s b, GenError.noImages.message ≠ (GenError.httpError s b).message) ∧
    (∀ m b, GenError.noImages.message ≠ (GenError.parseError m b).message) :=
  c5_empty_predictions_safety_error srvW (some "k") oraclesW
    { prompt := "p", aspect_ratio := none }
    { predictions := some [], error := none } (by decide) (by decide) rfl rfl

/-- Whenever the API key is truthy, `generateImageFromGemini` records exactly
the one provider request built from the prompt and aspect ratio, regardless
of how the call turns out. -/
theorem generateImageFromGemini_request (key : Option String) (oracles : GenOracles)
    (prompt : String) (ar : Option String) (resourcesPath : String)
    (outcome : FetchOutcome) (hkey : truthy key = true) :
    (generateImageFromGemini key oracles prompt ar resourcesPath outcome).request
      = some (mkGeminiRequest prompt ar) := by
  simp only [generateImageFromGemini, hkey, Bool.true_eq_false, if_false]
  cases outcome with
  | httpError s b => rfl
  | parseError m b => rfl
  | parsed resp =>
      cases hre : resp.error with
      | some m => simp [hre]
      | none =>
          by_cases hp : (resp.predictions.getD []).length = 0 <;> simp [hre, hp]

/-- When the aspect-ratio guard passes, the tool call's provider request is
that of the underlying `generateImageFromGemini` call. -/
theorem generate_image_request (srv : ServerState) (key : Option String)
    (oracles : GenOracles) (args : ImagePrompt) (outcome : FetchOutcome)
    (hvalid : aspectInvalid args.aspect_ratio = false) :
    (generate_image srv key oracles args outcome).request
      = (generateImageFromGemini key oracles args.prompt args.aspect_ratio
          srv.resourcesPath outcome).request := by
  simp only [generate_image, hvalid, Bool.false_eq_true, if_false]
  cases h : (generateImageFromGemini key oracles args.prompt args.aspect_ratio
      srv.resourcesPath outcome).result <;> simp [h]

/-- C6: a well-formed request line whose method is neither get_info nor
generate_image is answered with the RPC-level error envelope carrying the
request's id verbatim and the message Unknown method: name, with no provider
call and no file write. -/
theorem c6_unknown_method_rpc_error
    (srv : ServerState) (key : Option String) (oracles : GenOracles)
    (outcome : FetchOutcome) (req : RpcRequest)
    (h1 : req.method ≠ "get_info") (h2 : req.method ≠ "generate_image") :
    handleLine srv key oracles outcome (.request req) =
      { written := some { id := req.id, payload := .rpcError ("Unknown method: " ++ req.method) }
        request := none
        files := [] } := by
  simp [handleLine, h1, h2]

/-- C6 witness: the method foo with id 1. -/
theorem c6_witness :
    handleLine srvW (some "k") oraclesW (.parsed respW)
        (.request { id := "1", method := "foo", params := none }) =
      { written := some { id := "1", payload := .rpcError "Unknown method: foo" }
        request := none
        files := [] } :=
  c6_unknown_method_rpc_error srvW (some "k") oraclesW (.parsed respW)
    { id := "1", method := "foo", params := none } (by decide) (by decide)

/-- C3 counterexample: for an input line that is not valid JSON, no response
line is written at all — the catch-block reparse of the same malformed line
throws again, so the claim that exactly one response is emitted even for
invalid JSON lines is false. -/
theorem c3_counterexample_malformed_line_no_response :
    (handleLine srvW (some "k") oraclesW (.parsed respW) .malformed).written = none := rfl

/-- C3 (amended): for every input line that parses as a JSON request object,
exactly one response line is written and its id is the request's id verbatim;
for a line that is not valid JSON, no response line is written. -/
theorem c3_amended_response_per_parsed_line
    (srv : ServerState) (key : Option String) (oracles : GenOracles)
    (outcome : FetchOutcome) (req : RpcRequest) :
    ((handleLine srv key oracles outcome (.request req)).written.map RpcResponse.id)
      = some req.id ∧
    (handleLine srv key oracles outcome .malformed).written = none := by
  refine ⟨?_, rfl⟩
  simp only [handleLine]
  split_ifs with h1 h2
  · simp
  · cases req.params <;> simp
  · simp

/-- C2 counterexample: the empty string is a present aspect_ratio value
outside the five supported ones, yet generate_image neither returns the
validation error nor skips the network call — the truthiness guard lets the
empty string through, so the claim is false for aspect_ratio equal to the
empty string. -/
theorem c2_counterexample_empty_string_bypasses_validation :
    ¬ ("" ∈ supportedAspectRatios) ∧
    (generate_image srvW (some "k") oraclesW { prompt := "p", aspect_ratio := some "" }
        (.parsed respW)).request = some (mkGeminiRequest "p" (some "")) ∧
    (generate_image srvW (some "k") oraclesW { prompt := "p", aspect_ratio := some "" }
        (.parsed respW)).text
      = "http://127.0.0.1:9981/images/abcdefghij_20260101120000.png" :=
  ⟨by decide, rfl, rfl⟩

/-- C2 (amended): a supported aspect_ratio passes validation and is forwarded
unchanged in the provider request; a present, non-empty, unsupported
aspect_ratio yields the error text enumerating exactly the five supported
values, with no provider call and no file write.  (The empty string, although
present and unsupported, bypasses validation — see the counterexample.) -/
theorem c2_amended_aspect_ratio_validation
    (srv : ServerState) (key : Option String) (oracles : GenOracles)
    (outcome : FetchOutcome) (prompt r : String) :
    (r ∈ supportedAspectRatios → truthy key = true →
      (generate_image srv key oracles { prompt := prompt, aspect_ratio := some r }
          outcome).request = some (mkGeminiRequest prompt (some r))) ∧
    (r ≠ "" → r ∉ supportedAspectRatios →
      generate_image srv key oracles { prompt := prompt, aspect_ratio := some r } outcome
        = { text := invalidAspectMsg r, request := none, files := [] }) := by
  constructor
  · intro hr hkey
    have hvalid : aspectInvalid (some r) = false := by
      have : supportedAspectRatios.contains r = true := List.elem_iff.mpr hr
      simp only [aspectInvalid, Option.getD_some, this, Bool.not_true, Bool.and_false]
    rw [generate_image_request srv key oracles _ outcome hvalid]
    exact generateImageFromGemini_request key oracles prompt (some r)
      srv.resourcesPath outcome hkey
  · intro hne hr
    have hvalid : aspectInvalid (some r) = true := by
      have : supportedAspectRatios.contains r = false := by
        rcases h : supportedAspectRatios.contains r with _ | _
        · rfl
        · exact absurd (List.elem_iff.mp h) hr
      simp only [aspectInvalid, Option.getD_some, this, Bool.not_false, Bool.and_true,
        truthy, ne_eq, decide_eq_true_eq]
      exact hne
    simp [generate_image, hvalid]

/-- C2 witness: the supported value 16:9 is forwarded unchanged; the present,
non-empty, unsupported value 2:1 produces the error text naming the five
supported values with no provider call and no file write. -/
theorem c2_witness :
    (generate_image srvW (some "k") oraclesW { prompt := "p", aspect_ratio := some "16:9" }
        (.parsed respW)).request = some (mkGeminiRequest "p" (some "16:9")) ∧
    generate_image srvW (some "k") oraclesW { prompt := "p", aspect_ratio := some "2:1" }
        (.parsed respW)
      = { text := invalidAspectMsg "2:1", request := none, files := [] } :=
  ⟨(c2_amended_aspect_ratio_validation srvW (some "k") oraclesW (.parsed respW) "p" "16:9").1
      (by decide) (by decide),
    (c2_amended_aspect_ratio_validation srvW (some "k") oraclesW (.parsed respW) "p" "2:1").2
      (by decide) (by decide)⟩

/-- C10: the empty-string aspect ratio skips the validation guard (the guard
tests JavaScript truthiness, not presence), so no validation error arises and
the empty string is forwarded verbatim as the provider request's aspectRatio
parameter. -/
theorem c10_empty_string_aspect_ratio_forwarded
    (srv : ServerState) (key : Option String) (oracles : GenOracles)
    (outcome : FetchOutcome) (prompt : String)
    (hkey : truthy key = true) :
    aspectInvalid (some "") = false ∧
    (generate_image srv key oracles { prompt := prompt, aspect_ratio := some "" }
        outcome).request = some (mkGeminiRequest prompt (some "")) ∧
    (mkGeminiRequest prompt (some "")).parameters.aspectRatio = some "" := by
  refine ⟨by decide, ?_, rfl⟩
  rw [generate_image_request srv key oracles
    { prompt := prompt, aspect_ratio := some "" } outcome rfl]
  exact generateImageFromGemini_request key oracles prompt (some "")
    srv.resourcesPath outcome hkey

/-- C10 witness: a concrete call with the empty-string aspect ratio. -/
theorem c10_witness :
    aspectInvalid (some "") = false ∧
    (generate_image srvW (some "k") oraclesW { prompt := "p", aspect_ratio := some "" }
        (.parsed respW)).request = some (mkGeminiRequest "p" (some "")) ∧
    (mkGeminiRequest "p" (some "")).parameters.aspectRatio = some "" :=
  c10_empty_string_aspect_ratio_forwarded srvW (some "k") oraclesW (.parsed respW) "p"
    (by decide)

/-- C9 counterexample: with the empty prompt (and no aspect ratio) the
provider call is still made and its instances carry the empty prompt — no
prompt validation exists in the code, so the claim that an empty prompt never
reaches the provider is false. -/
theorem c9_counterexample_empty_prompt_sent_to_provider :
    (generate_image srvW (some "k") oraclesW { prompt := "", aspect_ratio := none }
        (.parsed respW)).request = some (mkGeminiRequest "" none) ∧
    (mkGeminiRequest "" none).instances = [{ prompt := "" }] :=
  ⟨rfl, rfl⟩

/-- C9 (amended): only the aspect_ratio of a generate_image invocation is
validated; the prompt is not validated at all — every prompt, the empty
string included, is forwarded verbatim as the provider request's single
instance. -/
theorem c9_amended_prompt_forwarded_unvalidated
    (srv : ServerState) (key : Option String) (oracles : GenOracles)
    (outcome : FetchOutcome) (args : ImagePrompt)
    (hkey : truthy key = true)
    (hvalid : aspectInvalid args.aspect_ratio = false) :
    (generate_image srv key oracles args outcome).request
      = some (mkGeminiRequest args.prompt args.aspect_ratio) ∧
    (mkGeminiRequest args.prompt args.aspect_ratio).instances
      = [{ prompt := args.prompt }] := by
  refine ⟨?_, rfl⟩
  rw [generate_image_request srv key oracles args outcome hvalid]
  exact generateImageFromGemini_request key oracles args.prompt args.aspect_ratio
    srv.resourcesPath outcome hkey

/-- C9 witness: the empty prompt is forwarded to the provider. -/
theorem c9_witness :
    (generate_image srvW (some "k") oraclesW { prompt := "", aspect_ratio := none }
        (.parsed respW)).request = some (mkGeminiRequest "" none) ∧
    (mkGeminiRequest "" none).instances = [{ prompt := "" }] :=
  c9_amended_prompt_forwarded_unvalidated srvW (some "k") oraclesW (.parsed respW)
    { prompt := "", aspect_ratio := none } (by decide) (by decide)

/-- C8 counterexample: the port value 80abc is not an integer, yet startup
succeeds with port 80 — parseInt(s, 10) reads the digit prefix and discards
the trailing garbage, so the claim that every non-integer port string makes
startup fail is false. -/
theorem c8_counterexample_garbage_port_accepted :
    isIntegerLiteral "80abc" = false ∧
    startupConfig
        { geminiApiKey := some "key", serverPortVar := some "80abc"
          imageResourceServerAddrVar := none, serverListenAddrVar := none }
      = .started
          { imageResourceServerAddr := "127.0.0.1", serverPort := 80
            listenAddr := "127.0.0.1" } :=
  ⟨rfl, rfl⟩

/-- C8 (amended): startup terminates with failure when the API key variable
is absent or empty, and when parseInt of the resolved port string yields NaN
(no decimal digit after optional whitespace and sign); conversely, whenever
parseInt yields a value and the key is truthy, startup succeeds with exactly
that value as the port — so a port string that merely has trailing non-digit
characters after a digit prefix is accepted, the trailing characters
discarded. -/
theorem c8_amended_startup_fail_fast (env : StartupEnv) :
    (truthy env.geminiApiKey = false → startupConfig env = .exitFailure) ∧
    (parseIntJS (jsOr env.serverPortVar "9981") = none →
      startupConfig env = .exitFailure) ∧
    (∀ p, parseIntJS (jsOr env.serverPortVar "9981") = some p →
      truthy env.geminiApiKey = true →
      startupConfig env = .started
        { imageResourceServerAddr := jsOr env.imageResourceServerAddrVar "127.0.0.1"
          serverPort := p
          listenAddr := jsOr env.serverListenAddrVar "127.0.0.1" }) := by
  refine ⟨?_, ?_, ?_⟩
  · intro h
    unfold startupConfig
    cases hp : parseIntJS (jsOr env.serverPortVar "9981") <;> simp [h, hp]
  · intro h
    unfold startupConfig
    simp [h]
  · intro p hp hk
    unfold startupConfig
    simp [hp, hk]

/-- C8 witness: a missing API key aborts startup, a digit-free port string
aborts startup, and the port string 80abc is accepted as port 80. -/
theorem c8_witness :
    startupConfig
        { geminiApiKey := none, serverPortVar := none
          imageResourceServerAddrVar := none, serverListenAddrVar := none }
      = .exitFailure ∧
    startupConfig
        { geminiApiKey := some "key", serverPortVar := some "abc"
          imageResourceServerAddrVar := none, serverListenAddrVar := none }
      = .exitFailure ∧
    startupConfig
        { geminiApiKey := some "key", serverPortVar := some "80abc"
          imageResourceServerAddrVar := none, serverListenAddrVar := none }
      = .started
          { imageResourceServerAddr := "127.0.0.1", serverPort := 80
            listenAddr := "127.0.0.1" } :=
  ⟨(c8_amended_startup_fail_fast _).1 (by decide),
    (c8_amended_startup_fail_fast _).2.1 (by decide),
    (c8_amended_startup_fail_fast _).2.2 80 (by decide) (by decide)⟩

/-- C7 counterexample: at the concrete instant instantW, seen by a process
running in a UTC+8 timezone, the persisted filename carries the local-time
rendering 20260102070000 produced by the date-format call, which differs
from the UTC rendering 20260101230000 of the same creation instant — so the
claim that the filename's timestamp is a UTC timestamp is false. -/
theorem c7_counterexample_local_not_utc_timestamp :
    dateFnsFormat instantW = "20260102070000" ∧
    formatYyyyMMddHHmmss instantW.utc = "20260101230000" ∧
    dateFnsFormat instantW ≠ formatYyyyMMddHHmmss instantW.utc ∧
    (generateImageFromGemini (some "k") oraclesTzW "p" none "/data/artifacts"
        (.parsed respW)).files.map Prod.fst
      = [pathJoin (pathJoin "/data/artifacts" "images")
          ("abcdefghij" ++ "_" ++ dateFnsFormat instantW ++ ".png")] :=
  ⟨rfl, rfl, by decide, rfl⟩

/-- C7 (amended): every persisted file's path is resourcesPath/images/filename
with filename = id_timestamp.png, where id is the nanoid output — at least 10
characters over the URL-safe alphabet — and timestamp is the PROCESS-LOCAL
civil-time rendering of the creation instant under yyyyMMddHHmmss (14 digits,
second resolution; it equals the UTC rendering only when the local zone is
UTC).  The contracts of the external nanoid and date-fns libraries enter as
hypotheses on the oracles; the concatenation, extension and target directory
are proved from the source. -/
theorem c7_amended_artifact_filename_local_timestamp
    (key : Option String) (oracles : GenOracles) (prompt : String)
    (ar : Option String) (resourcesPath : String) (outcome : FetchOutcome)
    (instantAt : Nat → ClockInstant)
    (hn : ∀ k, (oracles.nanoidAt k).length = 10 ∧
        ∀ c ∈ (oracles.nanoidAt k).data, c ∈ urlSafeAlphabet)
    (ht : ∀ k, oracles.timestampAt k = dateFnsFormat (instantAt k))
    (hshape : ∀ k, (dateFnsFormat (instantAt k)).length = 14 ∧
        ∀ c ∈ (dateFnsFormat (instantAt k)).data, c.isDigit) :
    ∀ pb ∈ (generateImageFromGemini key oracles prompt ar resourcesPath outcome).files,
      ∃ k idStr bytes,
        pb = (pathJoin (pathJoin resourcesPath "images")
            (idStr ++ "_" ++ formatYyyyMMddHHmmss (instantAt k).localTime ++ ".png"),
          bytes) ∧
        10 ≤ idStr.length ∧ (∀ c ∈ idStr.data, c ∈ urlSafeAlphabet) ∧
        (formatYyyyMMddHHmmss (instantAt k).localTime).length = 14 ∧
        (∀ c ∈ (formatYyyyMMddHHmmss (instantAt k).localTime).data, c.isDigit) := by
  intro pb hpb
  by_cases hkey : truthy key = false
  · simp [generateImageFromGemini, hkey] at hpb
  · rw [Bool.not_eq_false] at hkey
    cases outcome with
    | httpError s b => simp [generateImageFromGemini, hkey] at hpb
    | parseError m b => simp [generateImageFromGemini, hkey] at hpb
    | parsed resp =>
        cases hre : resp.error with
        | some m => simp [generateImageFromGemini, hkey, hre] at hpb
        | none =>
            by_cases hp : (resp.predictions.getD []).length = 0
            · simp [generateImageFromGemini, hkey, hre, hp] at hpb
            · simp only [generateImageFromGemini, hkey, Bool.true_eq_false, if_false, hre,
                hp, if_neg hp, List.map_map, List.mem_map] at hpb
              obtain ⟨p, hpmem, hpe⟩ := hpb
              refine ⟨p.1, oracles.nanoidAt p.1,
                oracles.decodeBase64 p.2.bytesBase64Encoded, ?_, ?_, ?_, ?_, ?_⟩
              · rw [← hpe]
                simp only [Function.comp_apply, mkFilename, ht p.1, dateFnsFormat]
              · exact le_of_eq (hn p.1).1.symm
              · exact (hn p.1).2
              · exact (hshape p.1).1
              · exact (hshape p.1).2

/-- C7 witness: a concrete success run in the UTC+8 environment writes
/data/artifacts/images/abcdefghij_20260102070000.png, the local-time
timestamp of the creation instant. -/
theorem c7_witness :
    ∃ (_k : Nat) (idStr : String) (bytes : List Nat),
      (("/data/artifacts/images/abcdefghij_20260102070000.png" : String),
          ([137, 80, 78, 71] : List Nat)) =
        (pathJoin (pathJoin "/data/artifacts" "images")
            (idStr ++ "_" ++ formatYyyyMMddHHmmss instantW.localTime ++ ".png"),
          bytes) ∧
      10 ≤ idStr.length ∧ (∀ c ∈ idStr.data, c ∈ urlSafeAlphabet) ∧
      (formatYyyyMMddHHmmss instantW.localTime).length = 14 ∧
      (∀ c ∈ (formatYyyyMMddHHmmss instantW.localTime).data, c.isDigit) :=
  c7_amended_artifact_filename_local_timestamp (some "k") oraclesTzW "p" none
    "/data/artifacts" (.parsed respW) (fun _ => instantW)
    (fun _ => ⟨rfl, show ∀ c ∈ ("abcdefghij" : String).data, c ∈ urlSafeAlphabet
      from by decide⟩)
    (fun _ => rfl)
    (fun _ => ⟨by show (dateFnsFormat instantW).length = 14; decide,
      by show ∀ c ∈ (dateFnsFormat instantW).data, c.isDigit; decide⟩)
    (("/data/artifacts/images/abcdefghij_20260102070000.png" : String),
      ([137, 80, 78, 71] : List Nat))
    (by decide)

end Imagen3Mcp
